import Mathlib

/-!
Verification of the ticket-manager ordering and state-synchronization core.

The definitions below are a shallow embedding of the client logic in
`src/unnamed/part_000` (the current client revision) and the Express/SQLite
endpoints in `src/server.js`.  Machine integers are modelled as `Int`/`Nat`
(no overflow is reachable at the scales involved), the JavaScript `Set`
(which iterates in insertion order) as a duplicate-free `List Int`, and the
`Map` of debounce timers as an association list with at most one entry per
key.  Asynchronous persistence calls are recorded in an explicit log.
-/

/-- Entity shape of a row of the `tickets` table / the client ticket mirror. -/
structure Ticket where
  id : Nat
  ticket_number : Int
  color : String
  notes : String
  current_step_id : Option Nat
  order_index : Nat
deriving DecidableEq, Repr

/-- Entity shape of a row of the `steps` table / the client step mirror. -/
structure Step where
  id : Nat
  name : String
  order_index : Nat
deriving DecidableEq, Repr

/-- JavaScript `Set.add`: appends the element unless already present
(insertion-ordered set semantics). -/
def setAdd (s : List Int) (n : Int) : List Int :=
  if n ∈ s then s else s ++ [n]

/-- JavaScript `Set.delete`: removes the element. -/
def setDelete (s : List Int) (n : Int) : List Int :=
  s.filter (fun m => m ≠ n)

/-- Accumulating maximum, the shape of the JS fold
`if (n > max) max = n` and of SQL MAX aggregation. -/
def foldMax {α : Type} [LinearOrder α] (a : α) (l : List α) : α :=
  l.foldl (fun m n => if m < n then n else m) a

/-- Source `generateNewTicketNumber`, sequential branch (part_000 lines
281-287): `max` starts at 0 and is raised by every larger element of
`usedTicketNumbers`; the result `max + 1 || 1` is added to the set. -/
def usedMax (used : List Int) : Int := foldMax 0 used

/-- One random draw: `Math.floor(Math.random() * 90) + 10`.  The random
stream is modelled by `rnd : Nat → Nat`; `rnd i % 90` stands for the i-th
value of `Math.floor(Math.random() * 90)`. -/
def draw (rnd : Nat → Nat) (i : Nat) : Int := ((rnd i % 90 : Nat) : Int) + 10

/-- Source do-while loop of `generateNewTicketNumber`, random branch
(part_000 lines 271-277): draw, count the attempt, break unconditionally
once the guard exceeds 500, otherwise redraw while the draw is already in
the used set.  `i` is the index of the current draw and `rem` the number of
collision checks still allowed before the guard trips. -/
def randLoop (used : List Int) (rnd : Nat → Nat) : Nat → Nat → Int
  | i, 0 => draw rnd i
  | i, rem + 1 => if draw rnd i ∈ used then randLoop used rnd (i + 1) rem else draw rnd i

/-- Source `generateNewTicketNumber` (part_000 lines 268-288): random mode
draws two-digit numbers with the 500-guard, sequential mode takes the
current maximum plus one; either way the result is added to
`usedTicketNumbers` before being returned. -/
def generateNewTicketNumber (randomTwoDigitNumbers : Bool) (rnd : Nat → Nat)
    (used : List Int) : Int × List Int :=
  if randomTwoDigitNumbers then
    let number := randLoop used rnd 0 500
    (number, setAdd used number)
  else
    let mx := usedMax used
    let next := if mx + 1 = 0 then 1 else mx + 1
    (next, setAdd used next)

/-- Density of `order_index` over a collection in display order: the values
are exactly 0..N-1, with no duplicates or gaps, matching positions. -/
abbrev orderDense {α : Type} (f : α → Nat) (l : List α) : Prop :=
  l.map f = List.range l.length

/-- The client reindexing pass `arr.forEach((x, i) => x.order_index = i)`
used after every ticket or step move (each changed index is also persisted
through an update call). -/
def reindexTickets (l : List Ticket) : List Ticket :=
  l.enum.map (fun p => { p.2 with order_index := p.1 })

/-- Step variant of the reindexing pass (part_000 lines 1866-1868 and
1923-1925). -/
def reindexSteps (l : List Step) : List Step :=
  l.enum.map (fun p => { p.2 with order_index := p.1 })

/-- Source `addTicket` (part_000 lines 321-346): the client posts a ticket
with `order_index: tickets.length` and pushes the created row onto the
mirror. -/
def addTicketOp (tickets : List Ticket) (newId : Nat) (number : Int)
    (color : String) (stepId : Option Nat) : List Ticket :=
  tickets ++ [⟨newId, number, color, "", stepId, tickets.length⟩]

/-- Source `deleteTicket` (part_000 lines 391-403): the row is deleted on
the server and filtered out of the mirror; no reindexing pass runs. -/
def deleteTicketOp (tickets : List Ticket) (ticketId : Nat) : List Ticket :=
  tickets.filter (fun t => t.id ≠ ticketId)

/-- Source `moveTicketInArray` (part_000 lines 2133-2140): guarded no-op on
-1 or equal indices, otherwise splice out, splice in (JS splice clamps an
out-of-range insertion point to the end), and reindex everything.  The
out-of-range `fromIdx` case (unreachable from the callers, which obtain it
via `findIndex`) would insert `undefined` and crash the reindex pass in JS;
it is mapped to `none` like the guarded no-op. -/
def moveTicketInArray (tickets : List Ticket) (fromIdx toIdx : Int) :
    Option (List Ticket) :=
  if fromIdx = -1 ∨ toIdx = -1 ∨ fromIdx = toIdx then none
  else
    match tickets[fromIdx.toNat]? with
    | none => none
    | some item =>
      let removed := tickets.take fromIdx.toNat ++ tickets.drop (fromIdx.toNat + 1)
      some (reindexTickets (removed.take toIdx.toNat ++ item :: removed.drop toIdx.toNat))

/-- JavaScript `findIndex`: index of the first match, -1 if none. -/
def findIdxJS {α : Type} (p : α → Bool) : List α → Int
  | [] => -1
  | a :: rest =>
    if p a then 0
    else
      let r := findIdxJS p rest
      if r = -1 then -1 else r + 1

/-- Source `addStep` (part_000 lines 1233-1248): the client posts
`{ name: '', order_index: steps.length }` and pushes the created row; the
server stores `order_index || 0`, which equals `steps.length` here. -/
def addStepOp (steps : List Step) (newId : Nat) : List Step :=
  steps ++ [⟨newId, "", steps.length⟩]

/-- Local part of source `deleteStep` (part_000 line 1322): the step is
filtered out of the mirror; no reindexing pass runs. -/
def deleteStepLocal (steps : List Step) (stepId : Nat) : List Step :=
  steps.filter (fun s => s.id ≠ stepId)

/-- Source `moveStep` (part_000 lines 1914-1926): looks the step up by id,
returns early when the target index leaves the sequence, otherwise splices
and reindexes every step. -/
def moveStep (steps : List Step) (stepId : Nat) (delta : Int) :
    Option (List Step) :=
  let fromIdx := findIdxJS (fun s => s.id == stepId) steps
  if fromIdx = -1 then none
  else
    let toIdx := fromIdx + delta
    if toIdx < 0 ∨ (steps.length : Int) ≤ toIdx then none
    else
      match steps[fromIdx.toNat]? with
      | none => none
      | some item =>
        let removed := steps.take fromIdx.toNat ++ steps.drop (fromIdx.toNat + 1)
        some (reindexSteps (removed.take toIdx.toNat ++ item :: removed.drop toIdx.toNat))

/-- Server handler `DELETE /api/steps/:id` (server.js lines 275-293): first
nulls `current_step_id` on every referencing ticket, then deletes the step
row.  Returns the updated persisted tickets and steps. -/
def serverDeleteStep (sTickets : List Ticket) (sSteps : List Step) (sid : Nat) :
    List Ticket × List Step :=
  (sTickets.map (fun t =>
      if t.current_step_id = some sid then { t with current_step_id := none } else t),
   sSteps.filter (fun s => s.id ≠ sid))

/-- Source `deleteStep` (part_000 lines 1294-1352) combined with the server
handler it awaits: the server cascades and deletes, then the client filters
the step out of its mirror and nulls `current_step_id` on every local
ticket that referenced it.  Result: (client tickets, client steps, server
tickets, server steps). -/
def deleteStepOp (cTickets : List Ticket) (cSteps : List Step)
    (sTickets : List Ticket) (sSteps : List Step) (sid : Nat) :
    List Ticket × List Step × List Ticket × List Step :=
  let srv := serverDeleteStep sTickets sSteps sid
  (cTickets.map (fun t =>
      if t.current_step_id = some sid then { t with current_step_id := none } else t),
   cSteps.filter (fun s => s.id ≠ sid),
   srv.1, srv.2)

/-- Source `changeTicketStep` (part_000 lines 406-451), restricted to the
state change it performs on the ticket: given the ordered step mirror, the
ticket's `current_step_id` and the direction string, it returns the new
`current_step_id` (the JS reads `steps[newIndex]?.id || null`, so an id of
0 would be coerced to null by the `||`). -/
def changeTicketStep (steps : List Step) (cur : Option Nat) (direction : String) :
    Option Nat :=
  if steps.length = 0 then cur
  else
    let found : Int :=
      match cur with
      | none => -1
      | some v => findIdxJS (fun s => s.id == v) steps
    let currentIndex : Int :=
      if found = -1 then (if direction = "right" then -1 else (steps.length : Int))
      else found
    let newIndex : Int :=
      if direction = "left" then (if 0 < currentIndex then currentIndex - 1 else 0)
      else (if currentIndex < (steps.length : Int) - 1 then currentIndex + 1
            else (steps.length : Int) - 1)
    match steps[newIndex.toNat]? with
    | some s => if s.id = 0 then none else some s.id
    | none => none

/-- Client state touched by the notes debounce machinery: the ticket
mirror, the `notesSaveTimers` map (at most one pending timer per ticket id,
each closing over the text it was scheduled with), and the log of
persistence calls issued so far. -/
structure NotesState where
  tickets : List Ticket
  timers : List (Nat × String)
  persisted : List (Nat × String)
deriving DecidableEq, Repr

/-- Source `updateTicketNotes` (part_000 lines 374-388): the mirror is
updated synchronously; any pending timer for the same ticket id is cleared
and a fresh 400 ms timer closing over the new text is installed.  No
persistence call happens here. -/
def updateTicketNotes (st : NotesState) (ticketId : Nat) (text : String) :
    NotesState :=
  ⟨st.tickets.map (fun t => if t.id = ticketId then { t with notes := text } else t),
   (st.timers.filter (fun e => e.1 ≠ ticketId)) ++ [(ticketId, text)],
   st.persisted⟩

/-- Expiry of the debounce timer for `ticketId` after an uninterrupted
400 ms quiet period: the scheduled callback calls
`updateTicket(ticketId, { notes: text })` (one persistence call plus the
`Object.assign` onto the mirror) and removes itself from the map. -/
def fireNotesTimer (st : NotesState) (ticketId : Nat) : NotesState :=
  match st.timers.find? (fun e => e.1 == ticketId) with
  | none => st
  | some e =>
    ⟨st.tickets.map (fun t => if t.id = ticketId then { t with notes := e.2 } else t),
     st.timers.filter (fun ee => ee.1 ≠ ticketId),
     st.persisted ++ [(ticketId, e.2)]⟩

/-- A burst of notes edits to one ticket, each arriving inside the previous
edit's quiet period (so no timer fires in between). -/
def applyNotesEdits (st : NotesState) (ticketId : Nat) (texts : List String) :
    NotesState :=
  texts.foldl (fun s t => updateTicketNotes s ticketId t) st

/-- Client state touched by ticket numbering: the ticket mirror, the
`usedTicketNumbers` set and the log of `ticket_number` persistence calls. -/
structure NumberingState where
  tickets : List Ticket
  used : List Int
  persisted : List (Nat × Int)
deriving DecidableEq, Repr

/-- Source `loadTickets` (part_000 lines 291-306): replaces the mirror with
the fetched rows and adds every `ticket_number` to `usedTicketNumbers`. -/
def loadTicketsOp (st : NumberingState) (fetched : List Ticket) : NumberingState :=
  ⟨fetched, fetched.foldl (fun s t => setAdd s t.ticket_number) st.used, st.persisted⟩

/-- Source `startEditTicketNumber`, save path of `finish(true)` (part_000
lines 1661-1677).  `value` is `parseInt(input.value, 10)` (`none` = NaN).
Rejections return the error text and the unchanged state.  On acceptance
the code awaits `updateTicket` — which persists AND `Object.assign`s the
new number onto the mirror — then adds the new number to the set, and only
then looks up the ticket to delete its "old" number, which by now is the
new one. -/
def startEditTicketNumberSave (st : NumberingState) (ticketId : Nat)
    (value : Option Int) : NumberingState × Option String :=
  match value with
  | none => (st, some "Enter a positive number.")
  | some newNum =>
    if newNum ≤ 0 then (st, some "Enter a positive number.")
    else if newNum ∈ st.used then (st, some "That number is already in use.")
    else
      let tickets1 := st.tickets.map (fun t =>
        if t.id = ticketId then { t with ticket_number := newNum } else t)
      let persisted1 := st.persisted ++ [(ticketId, newNum)]
      let used1 := setAdd st.used newNum
      let used2 :=
        match tickets1.find? (fun t => t.id == ticketId) with
        | some t => setDelete used1 t.ticket_number
        | none => used1
      (⟨tickets1, used2, persisted1⟩, none)

/-- Server handler `POST /api/tickets` (server.js lines 95-125): when the
body carries no numeric `order_index`, the assigned index is
`(MAX(order_index) ?? -1) + 1` over the existing rows. -/
def serverCreateTicketOrderIndex (store : List Ticket) (body : Option Nat) : Nat :=
  match body with
  | some i => i
  | none =>
    match store with
    | [] => 0
    | t :: rest => foldMax t.order_index (rest.map Ticket.order_index) + 1

/-- Server handler `POST /api/tickets` (server.js lines 95-125), the row it
inserts: `color || 'white'`, `notes || ''` and `current_step_id || null`
follow JS falsiness. -/
def createTicketHandler (store : List Ticket) (newId : Nat) (number : Int)
    (color notes : String) (sid : Option Nat) (bodyIdx : Option Nat) : List Ticket :=
  store ++ [⟨newId, number,
    (if color = "" then "white" else color),
    notes,
    (match sid with | some 0 => none | x => x),
    serverCreateTicketOrderIndex store bodyIdx⟩]

/-- Server handler `POST /api/steps` (server.js lines 221-238), the row it
inserts: the stored index is `order_index || 0`, so an omitted (or zero)
`order_index` is stored as 0 — there is no MAX+1 lookup for steps. -/
def createStepHandler (store : List Step) (newId : Nat) (name : String)
    (bodyIdx : Option Nat) : List Step :=
  store ++ [⟨newId, name, bodyIdx.getD 0⟩]

/-- Server handler `PUT /api/steps/:id` (server.js lines 241-272): the SET
clause is assembled only from the fields present in the body. -/
def stepUpdateAssignments (name : Option String) (orderIdx : Option Nat) :
    List String :=
  (match name with | some _ => ["name = ?"] | none => []) ++
  (match orderIdx with | some _ => ["order_index = ?"] | none => [])

/-- Server handler `PUT /api/steps/:id` (server.js lines 241-272) as a
store transition returning (HTTP status, store).  When the body carries
neither field the generated statement is `UPDATE steps SET  WHERE id = ?`;
SQLite's grammar requires at least one assignment after SET, so `prepare`
throws, the catch answers 500 and no row changes (better-sqlite3 behavior,
modelled by the empty-assignment test). -/
def putStepHandler (store : List Step) (sid : Nat) (name : Option String)
    (orderIdx : Option Nat) : Nat × List Step :=
  if stepUpdateAssignments name orderIdx = [] then (500, store)
  else
    (200, store.map (fun s =>
      if s.id = sid then
        { s with name := name.getD s.name, order_index := orderIdx.getD s.order_index }
      else s))

/-! ## Helper lemmas -/

theorem le_foldMax {α : Type} [LinearOrder α] (l : List α) (a : α) : a ≤ foldMax a l := by
  induction l generalizing a with
  | nil => exact le_refl a
  | cons c l ih =>
    have h1 : a ≤ if a < c then c else a := by
      split
      · exact le_of_lt (by assumption)
      · exact le_refl a
    exact h1.trans (ih (if a < c then c else a))

theorem le_foldMax_of_mem {α : Type} [LinearOrder α] {b : α} {l : List α}
    (h : b ∈ l) (a : α) : b ≤ foldMax a l := by
  induction l generalizing a with
  | nil => cases h
  | cons c l ih =>
    rcases List.mem_cons.mp h with hc | hl
    · subst hc
      have h1 : b ≤ if a < b then b else a := by
        split
        · exact le_refl b
        · exact le_of_not_lt (by assumption)
      exact h1.trans (le_foldMax l (if a < b then b else a))
    · exact ih hl (if a < c then c else a)

theorem foldMax_eq_or_mem {α : Type} [LinearOrder α] (l : List α) (a : α) :
    foldMax a l = a ∨ foldMax a l ∈ l := by
  induction l generalizing a with
  | nil => exact Or.inl rfl
  | cons c l ih =>
    rcases ih (if a < c then c else a) with heq | hmem
    · have : foldMax a (c :: l) = if a < c then c else a := heq
      rw [this]
      split
      · exact Or.inr (List.mem_cons_self c l)
      · exact Or.inl rfl
    · exact Or.inr (List.mem_cons_of_mem c hmem)

theorem mem_setAdd_self (s : List Int) (n : Int) : n ∈ setAdd s n := by
  unfold setAdd
  split
  · assumption
  · simp

theorem reindexTickets_dense (l : List Ticket) :
    orderDense Ticket.order_index (reindexTickets l) := by
  simp only [orderDense, reindexTickets, List.map_map, List.length_map, List.enum_length]
  have h : (Ticket.order_index ∘ fun p : Nat × Ticket =>
      { p.2 with order_index := p.1 }) = Prod.fst := by
    funext p
    rfl
  rw [h, List.enum_map_fst]

theorem reindexSteps_dense (l : List Step) :
    orderDense Step.order_index (reindexSteps l) := by
  simp only [orderDense, reindexSteps, List.map_map, List.length_map, List.enum_length]
  have h : (Step.order_index ∘ fun p : Nat × Step =>
      { p.2 with order_index := p.1 }) = Prod.fst := by
    funext p
    rfl
  rw [h, List.enum_map_fst]

/-! ## Claim theorems -/

/-- Claim C10: a step update request whose body contains neither `name` nor
`order_index` yields a 500 error and leaves the stored steps unchanged (the
generated UPDATE has an empty SET clause), while each field alone succeeds
with status 200. -/
theorem C10_empty_step_update (store : List Step) (sid : Nat) :
    putStepHandler store sid none none = (500, store) ∧
    (∀ nm, (putStepHandler store sid (some nm) none).1 = 200) ∧
    (∀ i, (putStepHandler store sid none (some i)).1 = 200) :=
  ⟨rfl, fun _ => rfl, fun _ => rfl⟩

/-- Claim C9, counterexample: with one existing step at `order_index = 5`,
creating a step without `order_index` should per the claim assign
`5 + 1 = 6`; the server stores `order_index || 0`, i.e. 0. -/
theorem C9_step_create_ignores_max :
    ¬ ((createStepHandler [⟨1, "A", 5⟩] 2 "B" none).map Step.order_index = [5, 6]) := by
  decide

/-- Claim C9, amended: when a create request omits `order_index`, the ticket
gateway appends at max existing `order_index` plus one (so strictly after
every existing row), but the step gateway stores `order_index || 0`, i.e. 0,
regardless of the existing maximum. -/
theorem C9_create_order_index (tstore : List Ticket) (sstore : List Step)
    (newId : Nat) (number : Int) (color notes : String) (sid : Option Nat)
    (name : String) :
    (∀ t, t ∈ tstore → t.order_index < serverCreateTicketOrderIndex tstore none) ∧
    ((createTicketHandler tstore newId number color notes sid none).map Ticket.order_index
      = tstore.map Ticket.order_index ++ [serverCreateTicketOrderIndex tstore none]) ∧
    (createStepHandler sstore newId name none = sstore ++ [⟨newId, name, 0⟩]) := by
  refine ⟨?_, ?_, rfl⟩
  · intro t ht
    match tstore, ht with
    | t0 :: rest, ht =>
      show t.order_index < foldMax t0.order_index (rest.map Ticket.order_index) + 1
      rcases List.mem_cons.mp ht with h0 | hr
      · subst h0
        exact Nat.lt_succ_of_le (le_foldMax (rest.map Ticket.order_index) t.order_index)
      · exact Nat.lt_succ_of_le
          (le_foldMax_of_mem (List.mem_map_of_mem Ticket.order_index hr) t0.order_index)
  · simp [createTicketHandler]

/-- Claim C9, witness: applying the amended theorem at one concrete store. -/
theorem C9_create_order_index_witness :
    (4 : Nat) < serverCreateTicketOrderIndex [⟨1, 5, "w", "", none, 4⟩] none :=
  (C9_create_order_index [⟨1, 5, "w", "", none, 4⟩] [] 2 6 "w" "" none "B").1
    ⟨1, 5, "w", "", none, 4⟩ (by decide)

/-- Claim C2: deleting step `S` (client `deleteStep` plus the awaited
server handler) leaves no ticket — in the local mirror or the persisted
store — referencing `S`, turns every previously referencing ticket into the
same ticket with `current_step_id = null`, and leaves no step with id `S`
in either step collection. -/
theorem C2_cascade (cT : List Ticket) (cS : List Step) (sT : List Ticket)
    (sS : List Step) (sid : Nat) :
    (∀ t, t ∈ (deleteStepOp cT cS sT sS sid).1 → t.current_step_id ≠ some sid) ∧
    (∀ s, s ∈ (deleteStepOp cT cS sT sS sid).2.1 → s.id ≠ sid) ∧
    (∀ t, t ∈ (deleteStepOp cT cS sT sS sid).2.2.1 → t.current_step_id ≠ some sid) ∧
    (∀ s, s ∈ (deleteStepOp cT cS sT sS sid).2.2.2 → s.id ≠ sid) ∧
    (∀ t, t ∈ cT → t.current_step_id = some sid →
      ({ t with current_step_id := none } : Ticket) ∈ (deleteStepOp cT cS sT sS sid).1) ∧
    (∀ t, t ∈ sT → t.current_step_id = some sid →
      ({ t with current_step_id := none } : Ticket) ∈ (deleteStepOp cT cS sT sS sid).2.2.1) := by
  refine ⟨?_, ?_, ?_, ?_, ?_, ?_⟩
  · intro t ht
    rcases List.mem_map.mp ht with ⟨t0, _, heq⟩
    by_cases hc : t0.current_step_id = some sid
    · rw [if_pos hc] at heq
      rw [← heq]
      simp
    · rw [if_neg hc] at heq
      rw [← heq]
      exact hc
  · intro s hs
    have := List.of_mem_filter hs
    simpa using this
  · intro t ht
    rcases List.mem_map.mp ht with ⟨t0, _, heq⟩
    by_cases hc : t0.current_step_id = some sid
    · rw [if_pos hc] at heq
      rw [← heq]
      simp
    · rw [if_neg hc] at heq
      rw [← heq]
      exact hc
  · intro s hs
    have := List.of_mem_filter hs
    simpa using this
  · intro t ht hc
    have : ({ t with current_step_id := none } : Ticket)
        = (if t.current_step_id = some sid then { t with current_step_id := none } else t) := by
      rw [if_pos hc]
    rw [this]
    exact List.mem_map_of_mem _ ht
  · intro t ht hc
    have : ({ t with current_step_id := none } : Ticket)
        = (if t.current_step_id = some sid then { t with current_step_id := none } else t) := by
      rw [if_pos hc]
    rw [this]
    exact List.mem_map_of_mem _ ht

/-- Claim C2, witness: the cascade at a concrete state — a ticket on step 9
is nulled in the local mirror when step 9 is deleted. -/
theorem C2_cascade_witness :
    ({ id := 1, ticket_number := 5, color := "w", notes := "", current_step_id := none,
       order_index := 0 } : Ticket)
      ∈ (deleteStepOp [⟨1, 5, "w", "", some 9, 0⟩] [⟨9, "S", 0⟩]
          [⟨1, 5, "w", "", some 9, 0⟩] [⟨9, "S", 0⟩] 9).1 :=
  (C2_cascade [⟨1, 5, "w", "", some 9, 0⟩] [⟨9, "S", 0⟩]
      [⟨1, 5, "w", "", some 9, 0⟩] [⟨9, "S", 0⟩] 9).2.2.2.2.1
    ⟨1, 5, "w", "", some 9, 0⟩ (by decide) (by decide)

/-- Claim C8: in sequential mode the generated number is one plus the
maximum number in the used-number set (the result minus one is a member
and an upper bound of the set), and is 1 when the set is empty. -/
theorem C8_sequential_numbering (used : List Int) (rnd : Nat → Nat)
    (hpos : ∀ n, n ∈ used → 0 < n) :
    ((generateNewTicketNumber false rnd []).1 = 1) ∧
    (used ≠ [] →
      ((generateNewTicketNumber false rnd used).1 - 1 ∈ used ∧
       ∀ n, n ∈ used → n ≤ (generateNewTicketNumber false rnd used).1 - 1)) := by
  have h0 : (0 : Int) ≤ usedMax used := le_foldMax used 0
  have hne : ¬ (usedMax used + 1 = 0) := by omega
  have hval : (generateNewTicketNumber false rnd used).1 = usedMax used + 1 := by
    simp only [generateNewTicketNumber, Bool.false_eq_true, if_false]
    rw [if_neg hne]
  refine ⟨rfl, fun hnil => ?_⟩
  rw [hval]
  simp only [add_sub_cancel_right]
  constructor
  · rcases foldMax_eq_or_mem used 0 with heq | hmem
    · exfalso
      rcases List.exists_mem_of_ne_nil used hnil with ⟨n, hn⟩
      have h1 : n ≤ usedMax used := le_foldMax_of_mem hn 0
      have h2 : 0 < n := hpos n hn
      have h3 : usedMax used = 0 := heq
      omega
    · exact hmem
  · intro n hn
    exact le_foldMax_of_mem hn 0

/-- Claim C8, witness: with used numbers {5, 7, 12} the next sequential
number is 13 (13 - 1 = 12 is a member and an upper bound). -/
theorem C8_sequential_numbering_witness :
    (∀ n, n ∈ ([5, 7, 12] : List Int) → 0 < n) ∧
    ((generateNewTicketNumber false (fun _ => 0) [5, 7, 12]).1 - 1 ∈ ([5, 7, 12] : List Int) ∧
     ∀ n, n ∈ ([5, 7, 12] : List Int) →
       n ≤ (generateNewTicketNumber false (fun _ => 0) [5, 7, 12]).1 - 1) :=
  ⟨by decide,
   (C8_sequential_numbering [5, 7, 12] (fun _ => 0) (by decide)).2 (by decide)⟩

/-- Claim C1, counterexample: from the dense two-ticket state with
`order_index` 0, 1, deleting the first ticket leaves the survivor at
`order_index` 1 — the values are not 0..N-1, the gap is not closed. -/
theorem C1_delete_leaves_gap :
    ¬ orderDense Ticket.order_index
      (deleteTicketOp [⟨1, 5, "white", "", none, 0⟩, ⟨2, 6, "white", "", none, 1⟩] 1) := by
  decide

/-- Claim C1, amended: creating appends at `order_index = N` (preserving
density) and every settled move reindexes the whole sequence to exactly
0..N-1, for tickets and steps alike; deleting, however, merely filters the
item out, every surviving record (including its `order_index`) being kept
unchanged, so deletion does not close the gap. -/
theorem C1_density_amended :
    (∀ (l : List Ticket) (i : Nat) (n : Int) (c : String) (s : Option Nat),
      orderDense Ticket.order_index l →
      orderDense Ticket.order_index (addTicketOp l i n c s)) ∧
    (∀ (l r : List Ticket) (f t : Int),
      moveTicketInArray l f t = some r → orderDense Ticket.order_index r) ∧
    (∀ (l : List Ticket) (i : Nat) (x : Ticket),
      x ∈ deleteTicketOp l i ↔ (x ∈ l ∧ x.id ≠ i)) ∧
    (∀ (l : List Step) (i : Nat),
      orderDense Step.order_index l → orderDense Step.order_index (addStepOp l i)) ∧
    (∀ (l r : List Step) (sid : Nat) (d : Int),
      moveStep l sid d = some r → orderDense Step.order_index r) ∧
    (∀ (l : List Step) (i : Nat) (x : Step),
      x ∈ deleteStepLocal l i ↔ (x ∈ l ∧ x.id ≠ i)) := by
  refine ⟨?_, ?_, ?_, ?_, ?_, ?_⟩
  · intro l i n c s hd
    simp only [orderDense, addTicketOp, List.map_append, List.length_append,
      List.map_cons, List.map_nil, List.length_cons, List.length_nil]
    rw [hd]
    norm_num [List.range_succ]
  · intro l r f t h
    unfold moveTicketInArray at h
    split at h
    · exact absurd h (by simp)
    · split at h
      · exact absurd h (by simp)
      · rw [Option.some_inj] at h
        rw [← h]
        exact reindexTickets_dense _
  · intro l i x
    simp [deleteTicketOp, List.mem_filter]
  · intro l i hd
    simp only [orderDense, addStepOp, List.map_append, List.length_append,
      List.map_cons, List.map_nil, List.length_cons, List.length_nil]
    rw [hd]
    norm_num [List.range_succ]
  · intro l r sid d h
    dsimp only [moveStep] at h
    split at h
    · exact absurd h (by simp)
    · split at h
      · exact absurd h (by simp)
      · split at h
        · exact absurd h (by simp)
        · rw [Option.some_inj] at h
          rw [← h]
          exact reindexSteps_dense _
  · intro l i x
    simp [deleteStepLocal, List.mem_filter]

/-- Claim C1, witness: the amended theorem applied at concrete inputs — a
move of the ticket at position 2 to position 0 in a three-ticket sequence
settles into a dense 0..2 assignment. -/
theorem C1_density_amended_witness :
    orderDense Ticket.order_index
      (reindexTickets [⟨3, 7, "w", "", none, 2⟩, ⟨1, 5, "w", "", none, 0⟩,
        ⟨2, 6, "w", "", none, 1⟩]) :=
  C1_density_amended.2.1
    [⟨1, 5, "w", "", none, 0⟩, ⟨2, 6, "w", "", none, 1⟩, ⟨3, 7, "w", "", none, 2⟩]
    (reindexTickets [⟨3, 7, "w", "", none, 2⟩, ⟨1, 5, "w", "", none, 0⟩,
      ⟨2, 6, "w", "", none, 1⟩])
    2 0 (by decide)

/-- Claim C3, evaluation at the failing input: a mirror with the single
ticket id 1 carrying number 5, used set {5}.  Re-entering the ticket's own
number 5 is rejected ("already in use") although the claim excludes the
ticket's own prior number from the check; and the accepted edit to 7 is
persisted and applied to the mirror, but the used set ends as {5}: the code
adds 7 and then deletes the "old" number after the awaited `updateTicket`
has already overwritten the mirror entry, so it deletes 7 and keeps 5 —
contradicting the source's own `// Remove old number from set` comment. -/
theorem C3_setNumber_eval :
    ((startEditTicketNumberSave ⟨[⟨1, 5, "white", "", none, 0⟩], [5], []⟩ 1 (some 5)).2
      = some "That number is already in use.") ∧
    ((startEditTicketNumberSave ⟨[⟨1, 5, "white", "", none, 0⟩], [5], []⟩ 1 (some 5)).1
      = ⟨[⟨1, 5, "white", "", none, 0⟩], [5], []⟩) ∧
    ((startEditTicketNumberSave ⟨[⟨1, 5, "white", "", none, 0⟩], [5], []⟩ 1 (some 7)).2
      = none) ∧
    ((startEditTicketNumberSave ⟨[⟨1, 5, "white", "", none, 0⟩], [5], []⟩ 1 (some 7)).1
      = ⟨[⟨1, 7, "white", "", none, 0⟩], [5], [(1, 7)]⟩) := by
  decide

/-- Claim C4, evaluation at the failing input: loading one ticket with
number 5 makes the used set {5}, a superset of the live numbers; the
subsequent accepted number edit to 7 leaves the used set at {5} while the
live mirror holds number 7, so the superset property is violated right
after the edit settles. -/
theorem C4_superset_eval :
    (∀ t, t ∈ (loadTicketsOp ⟨[], [], []⟩ [⟨1, 5, "white", "", none, 0⟩]).tickets →
      t.ticket_number ∈ (loadTicketsOp ⟨[], [], []⟩ [⟨1, 5, "white", "", none, 0⟩]).used) ∧
    (∃ t, t ∈ (startEditTicketNumberSave
        (loadTicketsOp ⟨[], [], []⟩ [⟨1, 5, "white", "", none, 0⟩]) 1 (some 7)).1.tickets ∧
      t.ticket_number ∉ (startEditTicketNumberSave
        (loadTicketsOp ⟨[], [], []⟩ [⟨1, 5, "white", "", none, 0⟩]) 1 (some 7)).1.used) := by
  decide

/-- Claim C7, helper: every result of the draw loop is one of the draws
with index at most the initial budget. -/
theorem randLoop_is_draw (used : List Int) (rnd : Nat → Nat) :
    ∀ rem i, ∃ j, i ≤ j ∧ j ≤ i + rem ∧ randLoop used rnd i rem = draw rnd j := by
  intro rem
  induction rem with
  | zero => exact fun i => ⟨i, le_refl i, by omega, rfl⟩
  | succ rem ih =>
    intro i
    by_cases h : draw rnd i ∈ used
    · rcases ih (i + 1) with ⟨j, hj1, hj2, hj3⟩
      refine ⟨j, by omega, by omega, ?_⟩
      rw [randLoop, if_pos h]
      exact hj3
    · refine ⟨i, le_refl i, by omega, ?_⟩
      rw [randLoop, if_neg h]

/-- Claim C7, helper: if the loop returns a colliding number, every draw it
could have consulted collides as well — the fallback only triggers on
exhaustion. -/
theorem randLoop_mem_imp (used : List Int) (rnd : Nat → Nat) :
    ∀ rem i, randLoop used rnd i rem ∈ used →
      ∀ j, i ≤ j → j ≤ i + rem → draw rnd j ∈ used := by
  intro rem
  induction rem with
  | zero =>
    intro i h j hj1 hj2
    have : j = i := by omega
    rw [this]
    exact h
  | succ rem ih =>
    intro i h j hj1 hj2
    by_cases hc : draw rnd i ∈ used
    · rcases Nat.eq_or_lt_of_le hj1 with heq | hlt
      · rw [← heq]
        exact hc
      · rw [randLoop, if_pos hc] at h
        exact ih (i + 1) h j hlt (by omega)
    · rw [randLoop, if_neg hc] at h
      exact absurd h hc

/-- Claim C7: in random mode the generated number lies in [10, 99], is one
of the first 501 draws, is in the used set afterwards (added before being
handed back), and can only collide with the used set if all 501 draws the
guard allows (500 re-draws plus the unconditional final one) collide —
i.e. colliding draws are rejected and redrawn until the bounded attempt
count is exhausted, after which the colliding number is returned anyway. -/
theorem C7_random_numbering (used : List Int) (rnd : Nat → Nat) :
    (10 ≤ (generateNewTicketNumber true rnd used).1 ∧
     (generateNewTicketNumber true rnd used).1 ≤ 99) ∧
    (∃ j, j ≤ 500 ∧ (generateNewTicketNumber true rnd used).1 = draw rnd j) ∧
    ((generateNewTicketNumber true rnd used).1 ∈ used →
      ∀ j, j ≤ 500 → draw rnd j ∈ used) ∧
    (generateNewTicketNumber true rnd used).1 ∈ (generateNewTicketNumber true rnd used).2 := by
  have hval : (generateNewTicketNumber true rnd used).1 = randLoop used rnd 0 500 := rfl
  have hset : (generateNewTicketNumber true rnd used).2
      = setAdd used (randLoop used rnd 0 500) := rfl
  refine ⟨?_, ?_, ?_, ?_⟩
  · rcases randLoop_is_draw used rnd 500 0 with ⟨j, _, _, hj⟩
    rw [hval, hj]
    unfold draw
    have := Nat.mod_lt (rnd j) (show 0 < 90 by norm_num)
    omega
  · rcases randLoop_is_draw used rnd 500 0 with ⟨j, _, hj2, hj⟩
    exact ⟨j, by omega, by rw [hval, hj]⟩
  · intro hmem j hj
    rw [hval] at hmem
    exact randLoop_mem_imp used rnd 500 0 hmem j (Nat.zero_le j) (by omega)
  · rw [hval, hset]
    exact mem_setAdd_self used (randLoop used rnd 0 500)

/-- Claim C7, witness: with an empty used set the first draw (here 10) is
fresh and returned; the theorem instantiated gives its range bounds. -/
theorem C7_random_numbering_witness :
    10 ≤ (generateNewTicketNumber true (fun _ => 0) []).1 ∧
    (generateNewTicketNumber true (fun _ => 0) []).1 ≤ 99 :=
  (C7_random_numbering [] (fun _ => 0)).1

/-- Claim C5, helper: entries kept by the complement filter never match the
key filter. -/
theorem filter_eq_of_filter_ne (l : List (Nat × String)) (i : Nat) :
    (l.filter (fun e => e.1 ≠ i)).filter (fun e => e.1 = i) = [] := by
  rw [List.filter_filter]
  apply List.filter_eq_nil_iff.mpr
  intro a _
  simp

/-- Claim C5, helper: `find?` skips a prefix of non-matching entries. -/
theorem find?_append_of_none (p : Nat × String → Bool) (l1 l2 : List (Nat × String))
    (h : ∀ e, e ∈ l1 → p e = false) : (l1 ++ l2).find? p = l2.find? p := by
  induction l1 with
  | nil => rfl
  | cons c r ih =>
    simp only [List.cons_append, List.find?_cons]
    rw [h c (List.mem_cons_self c r)]
    exact ih (fun e he => h e (List.mem_cons_of_mem c he))

/-- Claim C5, helper: a notes edit installs exactly one timer for its
ticket id, carrying the text of the edit. -/
theorem updateTicketNotes_timers_filter (st : NotesState) (ticketId : Nat)
    (text : String) :
    (updateTicketNotes st ticketId text).timers.filter (fun e => e.1 = ticketId)
      = [(ticketId, text)] := by
  show ((st.timers.filter (fun e => e.1 ≠ ticketId)) ++ [(ticketId, text)]).filter
      (fun e => e.1 = ticketId) = _
  rw [List.filter_append, filter_eq_of_filter_ne]
  simp

/-- Claim C5, helper: after a notes edit, the pending timer found for the
ticket id is the one the edit installed. -/
theorem updateTicketNotes_find (st : NotesState) (ticketId : Nat) (text : String) :
    (updateTicketNotes st ticketId text).timers.find? (fun e => e.1 == ticketId)
      = some (ticketId, text) := by
  show ((st.timers.filter (fun e => e.1 ≠ ticketId)) ++ [(ticketId, text)]).find?
      (fun e => e.1 == ticketId) = _
  rw [find?_append_of_none]
  · simp [List.find?]
  · intro e he
    have h2 := List.of_mem_filter he
    simp only [ne_eq, decide_not, Bool.not_eq_eq_eq_not, Bool.not_true,
      decide_eq_false_iff_not] at h2
    simp [h2]

/-- Claim C5, helper: no edit in a burst issues a persistence call. -/
theorem applyNotesEdits_persisted (ticketId : Nat) (texts : List String) :
    ∀ st : NotesState, (applyNotesEdits st ticketId texts).persisted = st.persisted := by
  induction texts with
  | nil => intro st; rfl
  | cons t ts ih =>
    intro st
    have h1 : applyNotesEdits st ticketId (t :: ts)
        = applyNotesEdits (updateTicketNotes st ticketId t) ticketId ts := rfl
    rw [h1, ih]
    rfl

/-- Claim C5, helper: a non-empty burst ends in its last edit. -/
theorem applyNotesEdits_last (ticketId : Nat) :
    ∀ (texts : List String) (hne : texts ≠ []) (st : NotesState),
      ∃ st0 : NotesState,
        applyNotesEdits st ticketId texts
          = updateTicketNotes st0 ticketId (texts.getLast hne) := by
  intro texts
  induction texts with
  | nil => intro hne; exact absurd rfl hne
  | cons t ts ih =>
    intro hne st
    by_cases hts : ts = []
    · subst hts
      exact ⟨st, rfl⟩
    · rcases ih hts (updateTicketNotes st ticketId t) with ⟨st0, h0⟩
      refine ⟨st0, ?_⟩
      have h1 : applyNotesEdits st ticketId (t :: ts)
          = applyNotesEdits (updateTicketNotes st ticketId t) ticketId ts := rfl
      rw [h1, h0]
      congr 1
      exact (List.getLast_cons hts).symm

/-- Claim C5: for a burst of notes edits to one ticket inside each other's
quiet period (no timer fires in between), every single edit updates the
local mirror synchronously; after the burst exactly one timer is pending
for the ticket id, carrying the final text, and nothing has been persisted;
the timer's expiry issues exactly one persistence call carrying the final
text and leaves no pending timer for the id. -/
theorem C5_debounce (st : NotesState) (ticketId : Nat) (texts : List String)
    (hne : texts ≠ []) :
    (∀ (s : NotesState) (text : String) (tk : Ticket),
      tk ∈ (updateTicketNotes s ticketId text).tickets → tk.id = ticketId →
        tk.notes = text) ∧
    ((applyNotesEdits st ticketId texts).timers.filter (fun e => e.1 = ticketId)
      = [(ticketId, texts.getLast hne)]) ∧
    ((applyNotesEdits st ticketId texts).persisted = st.persisted) ∧
    ((fireNotesTimer (applyNotesEdits st ticketId texts) ticketId).persisted
      = st.persisted ++ [(ticketId, texts.getLast hne)]) ∧
    ((fireNotesTimer (applyNotesEdits st ticketId texts) ticketId).timers.filter
      (fun e => e.1 = ticketId) = []) := by
  rcases applyNotesEdits_last ticketId texts hne st with ⟨st0, h0⟩
  have hpers : (applyNotesEdits st ticketId texts).persisted = st.persisted :=
    applyNotesEdits_persisted ticketId texts st
  have hpers0 : st0.persisted = st.persisted := by
    rw [h0] at hpers
    exact hpers
  have hfire : fireNotesTimer (applyNotesEdits st ticketId texts) ticketId
      = ⟨(applyNotesEdits st ticketId texts).tickets.map
          (fun t => if t.id = ticketId then { t with notes := texts.getLast hne } else t),
         (applyNotesEdits st ticketId texts).timers.filter (fun ee => ee.1 ≠ ticketId),
         (applyNotesEdits st ticketId texts).persisted ++ [(ticketId, texts.getLast hne)]⟩ := by
    rw [fireNotesTimer]
    rw [show (applyNotesEdits st ticketId texts).timers.find? (fun e => e.1 == ticketId)
        = some (ticketId, texts.getLast hne) by rw [h0]; exact updateTicketNotes_find st0 ticketId (texts.getLast hne)]
  refine ⟨?_, ?_, hpers, ?_, ?_⟩
  · intro s text tk htk hid
    rcases List.mem_map.mp htk with ⟨t0, _, heq⟩
    by_cases hc : t0.id = ticketId
    · rw [if_pos hc] at heq
      rw [← heq]
    · rw [if_neg hc] at heq
      rw [← heq] at hid
      exact absurd hid hc
  · rw [h0]
    exact updateTicketNotes_timers_filter st0 ticketId (texts.getLast hne)
  · rw [hfire]
    show (applyNotesEdits st ticketId texts).persisted ++ _ = _
    rw [hpers]
  · rw [hfire]
    show ((applyNotesEdits st ticketId texts).timers.filter (fun ee => ee.1 ≠ ticketId)).filter
      (fun e => e.1 = ticketId) = []
    exact filter_eq_of_filter_ne _ ticketId

/-- Claim C5, witness: edits "a", "ab", "abc" on ticket 1 followed by the
timer expiry persist exactly one call carrying "abc". -/
theorem C5_debounce_witness :
    (fireNotesTimer (applyNotesEdits ⟨[⟨1, 5, "w", "", none, 0⟩], [], []⟩ 1
      ["a", "ab", "abc"]) 1).persisted = [(1, "abc")] := by
  have h := (C5_debounce ⟨[⟨1, 5, "w", "", none, 0⟩], [], []⟩ 1 ["a", "ab", "abc"]
    (by simp)).2.2.2.1
  simpa using h

/-- Claim C6, helper: on a step list with pairwise distinct ids,
`findIndex` by the id of the element at position `i` returns `i`. -/
theorem findIdxJS_getElem (steps : List Step) :
    ∀ (i : Nat) (a : Step), (steps.map Step.id).Nodup → steps[i]? = some a →
      findIdxJS (fun s => s.id == a.id) steps = (i : Int) := by
  induction steps with
  | nil =>
    intro i a _ hia
    simp at hia
  | cons c rest ih =>
    intro i a hnd hia
    have hnd2 : c.id ∉ rest.map Step.id ∧ (rest.map Step.id).Nodup := by
      rw [List.map_cons, List.nodup_cons] at hnd
      exact hnd
    cases i with
    | zero =>
      have hac : c = a := by simpa using hia
      subst hac
      simp [findIdxJS]
    | succ j =>
      have hj : rest[j]? = some a := by simpa using hia
      have hmem : a ∈ rest := List.getElem?_mem hj
      have hne : c.id ≠ a.id := fun h => hnd2.1 (h ▸ List.mem_map_of_mem Step.id hmem)
      have hpc : (c.id == a.id) = false := by simp [hne]
      have hr : findIdxJS (fun s => s.id == a.id) rest = (j : Int) := ih j a hnd2.2 hj
      rw [show findIdxJS (fun s => s.id == a.id) (c :: rest)
          = if (c.id == a.id) = true then 0
            else (if findIdxJS (fun s => s.id == a.id) rest = -1 then -1
                  else findIdxJS (fun s => s.id == a.id) rest + 1) from rfl]
      rw [hpc]
      simp only [Bool.false_eq_true, if_false, hr]
      rw [if_neg (by omega)]
      push_cast
      ring

/-- Claim C6, helper: resolving `steps[newIndex]?.id || null` at a known
position of a step with nonzero id. -/
theorem stepLookup (steps : List Step) (hpos : ∀ s, s ∈ steps → 0 < s.id)
    {k : Nat} {s0 : Step} (h : steps[k]? = some s0) :
    (match steps[k]? with
     | some s => if s.id = 0 then none else some s.id
     | none => none) = some s0.id := by
  rw [h]
  have := hpos s0 (List.getElem?_mem h)
  show (if s0.id = 0 then (none : Option Nat) else some s0.id) = some s0.id
  rw [if_neg (by omega)]

/-- Claim C6: with a nonempty step sequence (distinct, nonzero ids): a
ticket with no step advances "right" onto the first step and "left" onto
the last; a ticket on the first step advancing "left" stays there; one on
the last step advancing "right" stays there; otherwise advancing moves
exactly one position in the requested direction. -/
theorem C6_step_navigation (steps : List Step)
    (hpos : ∀ s, s ∈ steps → 0 < s.id)
    (hnd : (steps.map Step.id).Nodup) :
    (∀ a, steps[0]? = some a →
      changeTicketStep steps none "right" = some a.id ∧
      changeTicketStep steps (some a.id) "left" = some a.id) ∧
    (∀ z, steps[steps.length - 1]? = some z →
      changeTicketStep steps none "left" = some z.id ∧
      changeTicketStep steps (some z.id) "right" = some z.id) ∧
    (∀ (i : Nat) (a b : Step), steps[i]? = some a → steps[i + 1]? = some b →
      changeTicketStep steps (some a.id) "right" = some b.id ∧
      changeTicketStep steps (some b.id) "left" = some a.id) := by
  refine ⟨?_, ?_, ?_⟩
  · intro a ha
    have hL : 0 < steps.length := (List.getElem?_eq_some.mp ha).1
    constructor
    · unfold changeTicketStep
      rw [if_neg (by omega)]
      dsimp only
      rw [if_pos rfl, if_pos rfl, if_neg (by decide)]
      rw [if_pos (by omega : (-1 : Int) < (steps.length : Int) - 1)]
      rw [show ((-1 : Int) + 1).toNat = 0 by omega]
      exact stepLookup steps hpos ha
    · have hfound := findIdxJS_getElem steps 0 a hnd ha
      unfold changeTicketStep
      rw [if_neg (by omega)]
      dsimp only
      rw [hfound]
      rw [if_neg (by omega : ¬((0 : Nat) : Int) = -1)]
      rw [if_pos rfl]
      rw [if_neg (by omega : ¬(0 : Int) < ((0 : Nat) : Int))]
      rw [show ((0 : Int).toNat) = 0 from rfl]
      exact stepLookup steps hpos ha
  · intro z hz
    have hL : steps.length - 1 < steps.length := (List.getElem?_eq_some.mp hz).1
    have h1 : 0 < steps.length := by omega
    constructor
    · unfold changeTicketStep
      rw [if_neg (by omega)]
      dsimp only
      rw [if_pos rfl, if_neg (by decide : ¬("left" : String) = "right"), if_pos rfl]
      rw [if_pos (by omega : (0 : Int) < (steps.length : Int))]
      rw [show ((steps.length : Int) - 1).toNat = steps.length - 1 by omega]
      exact stepLookup steps hpos hz
    · have hfound := findIdxJS_getElem steps (steps.length - 1) z hnd hz
      unfold changeTicketStep
      rw [if_neg (by omega)]
      dsimp only
      rw [hfound]
      rw [if_neg (by omega : ¬((steps.length - 1 : Nat) : Int) = -1)]
      rw [if_neg (by decide : ¬("right" : String) = "left")]
      rw [if_neg (by omega : ¬((steps.length - 1 : Nat) : Int) < (steps.length : Int) - 1)]
      rw [show ((steps.length : Int) - 1).toNat = steps.length - 1 by omega]
      exact stepLookup steps hpos hz
  · intro i a b ha hb
    have hLb : i + 1 < steps.length := (List.getElem?_eq_some.mp hb).1
    constructor
    · have hfound := findIdxJS_getElem steps i a hnd ha
      unfold changeTicketStep
      rw [if_neg (by omega)]
      dsimp only
      rw [hfound]
      rw [if_neg (by omega : ¬((i : Nat) : Int) = -1)]
      rw [if_neg (by decide : ¬("right" : String) = "left")]
      rw [if_pos (by omega : ((i : Nat) : Int) < (steps.length : Int) - 1)]
      rw [show (((i : Nat) : Int) + 1).toNat = i + 1 by omega]
      exact stepLookup steps hpos hb
    · have hfound := findIdxJS_getElem steps (i + 1) b hnd hb
      unfold changeTicketStep
      rw [if_neg (by omega)]
      dsimp only
      rw [hfound]
      rw [if_neg (by omega : ¬((i + 1 : Nat) : Int) = -1)]
      rw [if_pos rfl]
      rw [if_pos (by omega : (0 : Int) < ((i + 1 : Nat) : Int))]
      rw [show (((i + 1 : Nat) : Int) - 1).toNat = i by omega]
      exact stepLookup steps hpos ha

/-- Claim C6, witness: on the concrete sequence [A, B, C] a ticket with no
step advancing "right" lands on A (id 1). -/
theorem C6_step_navigation_witness :
    changeTicketStep [⟨1, "A", 0⟩, ⟨2, "B", 1⟩, ⟨3, "C", 2⟩] none "right" = some 1 := by
  have h := ((C6_step_navigation [⟨1, "A", 0⟩, ⟨2, "B", 1⟩, ⟨3, "C", 2⟩]
    (by decide) (by decide)).1 ⟨1, "A", 0⟩ (by decide)).1
  simpa using h

/-- Claim C4, witness: the violating state exists — after the number edit a
live ticket's number is missing from the used set. -/
theorem C4_superset_eval_witness :
    ∃ t, t ∈ (startEditTicketNumberSave
        (loadTicketsOp ⟨[], [], []⟩ [⟨1, 5, "white", "", none, 0⟩]) 1 (some 7)).1.tickets ∧
      t.ticket_number ∉ (startEditTicketNumberSave
        (loadTicketsOp ⟨[], [], []⟩ [⟨1, 5, "white", "", none, 0⟩]) 1 (some 7)).1.used :=
  C4_superset_eval.2
